import Mathlib

/-!
Verification development for the ta-assistant repository (scraper.py,
summary.py, send.py).  The Python source is shallowly embedded: pure string
and date logic is translated into executable Lean functions; the external
collaborators (the Playwright page, the completion API, the filesystem and
the JSON codec) are parameters/oracles, exactly as the code consumes them
(a navigation attempt yields a response or an exception, a completion call
yields a message or an exception, and so on).

Conventions used throughout:
* Python strings are Lean `String`s (lists of unicode code points); `len`
  is `String.length`, `str.lower()` is a `Char.toLower` map (the inputs of
  interest are ASCII/CJK, on which the two agree), `x in s` is substring
  containment, `str.strip()` trims ASCII whitespace at both ends.
* `datetime` values are minutes since 0001-01-01T00:00 in the proleptic
  Gregorian calendar; `datetime(y,m,d,h,mi)` raising `ValueError` is the
  guard `dtValid`; subtracting a `timedelta` is integer subtraction, with
  an out-of-range result standing for `OverflowError`.
* The Europe/London zone is modelled by its current-era rule (GMT, with
  BST = UTC+1 between 01:00 UTC on the last Sunday of March and 01:00 UTC
  on the last Sunday of October); the claims only exercise modern dates.
* glibc `strftime` prints `%Y` without zero padding and `%m`, `%d` with
  two digits; `formatYMD` reproduces this (the code runs on Linux).
-/

/-! ## String helpers -/

/-- Is `pre` a prefix of `l`? (used to implement substring containment). -/
def isPreOf : List Char → List Char → Bool
  | [], _ => true
  | _ :: _, [] => false
  | a :: as, b :: bs => a == b && isPreOf as bs

/-- Does `hay` contain `pat` as a contiguous sublist?  Mirrors Python's
`pat in hay` for strings. -/
def containsSub (hay pat : List Char) : Bool :=
  match hay with
  | [] => pat.isEmpty
  | _ :: t => isPreOf pat hay || containsSub t pat

/-- Python's `pat in s` substring test. -/
def containsStr (s pat : String) : Bool := containsSub s.data pat.data

/-- Python's `str.lower()` (ASCII case mapping). -/
def lowerStr (s : String) : String := ⟨s.data.map Char.toLower⟩

/-- Python's whitespace class `\s` (ASCII part): space, TAB, LF, CR, FF, VT. -/
def isPySpace (c : Char) : Bool :=
  c == ' ' || c == '\t' || c == '\n' || c == '\r' || c == '\x0b' || c == '\x0c'

/-- Python's `str.strip()` (whitespace at both ends). -/
def stripStr (s : String) : String :=
  ⟨(((s.data.dropWhile isPySpace).reverse.dropWhile isPySpace).reverse)⟩

/-- Python's `s[:n]` on strings. -/
def takeStr (s : String) (n : Nat) : String := ⟨s.data.take n⟩

/-- ASCII decimal digit (`\d` for the inputs of interest). -/
def isDigitChar (c : Char) : Bool :=
  decide (48 ≤ c.toNat) && decide (c.toNat ≤ 57)

/-- ASCII letter (`[a-zA-Z]`). -/
def isLetterChar (c : Char) : Bool :=
  (decide ('a'.toNat ≤ c.toNat) && decide (c.toNat ≤ 'z'.toNat)) ||
  (decide ('A'.toNat ≤ c.toNat) && decide (c.toNat ≤ 'Z'.toNat))

/-- Value of a list of decimal digit characters, as `int()` reads a
captured group. -/
def natOfDigits (l : List Char) : Nat :=
  l.foldl (fun a c => a * 10 + (c.toNat - 48)) 0

/-- The decimal digit character for `n % 10`. -/
def digitChar (n : Nat) : Char :=
  match n % 10 with
  | 0 => '0' | 1 => '1' | 2 => '2' | 3 => '3' | 4 => '4'
  | 5 => '5' | 6 => '6' | 7 => '7' | 8 => '8' | _ => '9'

/-- Digits of `n` accumulated onto `acc`, with explicit fuel (any fuel of
at least the digit count of `n` is enough; we always pass `n` itself). -/
def natStrAux : Nat → Nat → List Char → List Char
  | 0, n, acc => digitChar n :: acc
  | fuel + 1, n, acc =>
    if n < 10 then digitChar n :: acc
    else natStrAux fuel (n / 10) (digitChar (n % 10) :: acc)

/-- Decimal representation of a natural number, as Python's `str`/`%d`
prints it (no padding). -/
def natStrL (n : Nat) : List Char := natStrAux n n []

/-- Python's `%02d`: zero-pad to (at least) two digits. -/
def pad2L (n : Nat) : List Char :=
  if n < 10 then '0' :: natStrL n else natStrL n

/-- glibc `strftime("%Y%m%d")` and equally the fallback f-string
`f"{year}{month:02d}{day:02d}"`: unpadded year, two-digit month and day. -/
def formatYMD (y m d : Nat) : String := ⟨natStrL y ++ pad2L m ++ pad2L d⟩

lemma isDigitChar_digitChar (n : Nat) : isDigitChar (digitChar n) = true := by
  unfold digitChar
  have h : n % 10 < 10 := Nat.mod_lt _ (by omega)
  generalize hk : n % 10 = k at *
  interval_cases k <;> decide

lemma natStrAux_ne_nil : ∀ (fuel n : Nat) (acc : List Char),
    natStrAux fuel n acc ≠ [] := by
  intro fuel
  induction fuel with
  | zero => intro n acc; simp [natStrAux]
  | succ f ih =>
    intro n acc
    unfold natStrAux
    split
    · simp
    · exact ih (n / 10) (digitChar (n % 10) :: acc)

lemma natStrL_ne_nil (n : Nat) : natStrL n ≠ [] := natStrAux_ne_nil n n []

lemma natStrAux_digits : ∀ (fuel n : Nat) (acc : List Char),
    acc.all isDigitChar = true → (natStrAux fuel n acc).all isDigitChar = true := by
  intro fuel
  induction fuel with
  | zero =>
    intro n acc hacc
    simp [natStrAux, List.all_cons, isDigitChar_digitChar, hacc]
  | succ f ih =>
    intro n acc hacc
    unfold natStrAux
    split
    · simp [List.all_cons, isDigitChar_digitChar, hacc]
    · exact ih (n / 10) _ (by simp [List.all_cons, isDigitChar_digitChar, hacc])

lemma natStrL_digits (n : Nat) : (natStrL n).all isDigitChar = true :=
  natStrAux_digits n n [] rfl

lemma pad2L_digits (n : Nat) : (pad2L n).all isDigitChar = true := by
  unfold pad2L
  split
  · simp [natStrL_digits, isDigitChar]
  · exact natStrL_digits n

lemma formatYMD_digits (y m d : Nat) :
    (formatYMD y m d).data.all isDigitChar = true := by
  show (natStrL y ++ pad2L m ++ pad2L d).all isDigitChar = true
  simp [List.all_append, natStrL_digits, pad2L_digits]

lemma formatYMD_pos (y m d : Nat) : 0 < (formatYMD y m d).length := by
  show 0 < (natStrL y ++ pad2L m ++ pad2L d).length
  have h := natStrL_ne_nil y
  simp [List.length_append]
  left
  exact List.length_pos.mpr h

/-! ## A tiny backtracking matcher

The scraper uses `re.search` with four fixed patterns.  We embed exactly
those patterns.  `takeExact p n` consumes `n` characters all satisfying the
class `p`; `greedyRange p lo hi l k` implements the greedy bounded repeat
`p{lo,hi}` followed by the continuation `k` (longest first, backtracking on
failure, exactly as the regex engine would); `searchAux m` tries the
matcher `m` at each successive start position (leftmost match,
`re.search`). -/

/-- Consume exactly `n` characters satisfying `p`; return them and the rest. -/
def takeExact (p : Char → Bool) : Nat → List Char → Option (List Char × List Char)
  | 0, l => some ([], l)
  | _ + 1, [] => none
  | n + 1, c :: t =>
    if p c then (takeExact p n t).map (fun x => (c :: x.1, x.2)) else none

/-- Greedy `p{lo,hi}` followed by continuation `k : captured → rest → Option α`.
Tries the repeat lengths `hi, hi-1, …, lo` in that order. -/
def greedyRange (p : Char → Bool) (lo : Nat) :
    Nat → List Char → (List Char → List Char → Option α) → Option α
  | 0, l, k => if lo = 0 then k [] l else none
  | hi + 1, l, k =>
    if hi + 1 < lo then none
    else
      match takeExact p (hi + 1) l with
      | some x =>
        match k x.1 x.2 with
        | some res => some res
        | none => greedyRange p lo hi l k
      | none => greedyRange p lo hi l k

/-- Consume the literal character `c`. -/
def matchChar (c : Char) : List Char → Option (List Char)
  | [] => none
  | a :: t => if a == c then some t else none

/-- Consume the literal string `pat` case-sensitively. -/
def matchLit : List Char → List Char → Option (List Char)
  | [], l => some l
  | _ :: _, [] => none
  | p :: ps, a :: t => if a == p then matchLit ps t else none

/-- Consume the literal string `pat` case-insensitively (for `re.IGNORECASE`). -/
def matchLitCI : List Char → List Char → Option (List Char)
  | [], l => some l
  | _ :: _, [] => none
  | p :: ps, a :: t => if a.toLower == p.toLower then matchLitCI ps t else none

/-- `re.search`: try the matcher at every start position, left to right. -/
def searchAux (m : List Char → Option α) : List Char → Option α
  | [] => m []
  | c :: t =>
    match m (c :: t) with
    | some r => some r
    | none => searchAux m t

lemma takeExact_sound {p : Char → Bool} :
    ∀ (n : Nat) (l c r : List Char), takeExact p n l = some (c, r) →
      c.all p = true ∧ c.length = n := by
  intro n
  induction n with
  | zero =>
    intro l c r h
    simp only [takeExact, Option.some.injEq, Prod.mk.injEq] at h
    obtain ⟨hc, _⟩ := h
    subst hc
    simp
  | succ n ih =>
    intro l c r h
    cases l with
    | nil => simp [takeExact] at h
    | cons a t =>
      simp only [takeExact] at h
      split at h
      · rename_i hp
        cases ht : takeExact p n t with
        | none => rw [ht] at h; simp at h
        | some x =>
          obtain ⟨c', r'⟩ := x
          rw [ht] at h
          simp only [Option.map_some', Option.some.injEq, Prod.mk.injEq] at h
          obtain ⟨hc, _⟩ := h
          obtain ⟨h1, h2⟩ := ih t c' r' ht
          subst hc
          simp [List.all_cons, hp, h1, h2]
      · simp at h

lemma greedyRange_sound {α : Type} {p : Char → Bool} {lo : Nat} :
    ∀ (hi : Nat) (l : List Char) (k : List Char → List Char → Option α)
      (res : α), greedyRange p lo hi l k = some res →
      ∃ c r, c.all p = true ∧ lo ≤ c.length ∧ k c r = some res := by
  intro hi
  induction hi with
  | zero =>
    intro l k res h
    simp only [greedyRange] at h
    split at h
    · rename_i hlo
      exact ⟨[], l, rfl, by simp [hlo], h⟩
    · simp at h
  | succ n ih =>
    intro l k res h
    simp only [greedyRange] at h
    split at h
    · simp at h
    · rename_i hlo
      split at h
      · rename_i x ht
        split at h
        · rename_i res' hk
          obtain ⟨c, r⟩ := x
          obtain ⟨hall, hlen⟩ := takeExact_sound (n + 1) l c r ht
          exact ⟨c, r, hall, by omega, hk.trans (by simpa using h)⟩
        · exact ih l k res h
      · exact ih l k res h

lemma searchAux_sound {α : Type} {m : List Char → Option α} :
    ∀ (l : List Char) (res : α), searchAux m l = some res →
      ∃ l', m l' = some res := by
  intro l
  induction l with
  | nil => intro res h; exact ⟨[], h⟩
  | cons c t ih =>
    intro res h
    simp only [searchAux] at h
    split at h
    · rename_i r hm
      exact ⟨c :: t, hm.trans (by simpa using h)⟩
    · exact ih res h

/-! ## Proleptic Gregorian calendar and the Europe/London zone

`datetime` instants are modelled as minutes since 0001-01-01T00:00.
`ymdOfMinutes` is the inverse used by `strftime`.  Europe/London is GMT
with BST (UTC+1) between 01:00 UTC on the last Sunday of March and 01:00
UTC on the last Sunday of October — the rule in force since 1996, which is
the regime all of the repository's dates (current news articles) fall in. -/

def isLeapYear (y : Nat) : Bool :=
  (y % 4 == 0 && y % 100 != 0) || y % 400 == 0

def daysInMonth (y m : Nat) : Nat :=
  if m == 2 then (if isLeapYear y then 29 else 28)
  else if m == 4 || m == 6 || m == 9 || m == 11 then 30
  else 31

/-- Days in years `1 .. y-1`, i.e. the rata-die day number of Jan 1 of `y`. -/
def daysBeforeYear (y : Nat) : Nat :=
  (365 * (y - 1) + (y - 1) / 4 + (y - 1) / 400) - (y - 1) / 100

/-- Days in the months of `y` strictly before month `m`. -/
def daysBeforeMonth (y m : Nat) : Nat :=
  (List.range (m - 1)).foldl (fun a i => a + daysInMonth y (i + 1)) 0

/-- 0-based day number of the date `(y, m, d)` (0 = 0001-01-01, a Monday). -/
def dayNumber (y m d : Nat) : Nat :=
  daysBeforeYear y + daysBeforeMonth y m + (d - 1)

/-- Minutes since 0001-01-01T00:00 of a naive `datetime(y, m, d, h, mi)`. -/
def minutesOf (y m d h mi : Nat) : Nat :=
  dayNumber y m d * 1440 + h * 60 + mi

/-- First minute outside `datetime`'s range (start of year 10000). -/
def maxDtMinutes : Nat := daysBeforeYear 10000 * 1440

/-- The year containing the 0-based day number `d0` (estimate then adjust). -/
def yearOfDay (d0 : Nat) : Nat :=
  let y := d0 * 400 / 146097 + 1
  if daysBeforeYear (y + 1) ≤ d0 then y + 1
  else if d0 < daysBeforeYear y then y - 1
  else y

/-- From a 0-based day-of-year, find `(month, day)`; fuel counts months
still to try. -/
def monthOfDoyAux (y : Nat) : Nat → Nat → Nat → Nat × Nat
  | 0, m, doy => (m, doy + 1)
  | fuel + 1, m, doy =>
    if doy < daysInMonth y m then (m, doy + 1)
    else monthOfDoyAux y fuel (m + 1) (doy - daysInMonth y m)

/-- Convert minutes since 0001-01-01T00:00 back to `(year, month, day)`. -/
def ymdOfMinutes (u : Nat) : Nat × Nat × Nat :=
  let d0 := u / 1440
  let y := yearOfDay d0
  let md := monthOfDoyAux y 11 1 (d0 - daysBeforeYear y)
  (y, md.1, md.2)

/-- Day of the month of the last Sunday of month `m` of year `y`.
Day number 0 (0001-01-01) is a Monday, so a day number `≡ 6 [MOD 7]` is a
Sunday. -/
def lastSundayDay (y m : Nat) : Nat :=
  let L := daysInMonth y m
  L - ((dayNumber y m L % 7 + 1) % 7)

/-- First minute (UTC) of British Summer Time in year `y`:
01:00 UTC, last Sunday of March. -/
def bstStartMin (y : Nat) : Nat := minutesOf y 3 (lastSundayDay y 3) 1 0

/-- First minute (UTC) after British Summer Time in year `y`:
01:00 UTC, last Sunday of October. -/
def bstEndMin (y : Nat) : Nat := minutesOf y 10 (lastSundayDay y 10) 1 0

/-- Is the UTC instant `u` inside British Summer Time? -/
def isBST (u : Nat) : Bool :=
  decide (bstStartMin (ymdOfMinutes u).1 ≤ u) &&
  decide (u < bstEndMin (ymdOfMinutes u).1)

/-- Europe/London wall-clock offset from UTC, in minutes. -/
def londonOffsetMin (u : Nat) : Nat := if isBST u then 60 else 0

/-- `dt_utc.astimezone(ZoneInfo("Europe/London")).strftime("%Y%m%d")`:
convert the UTC instant to London wall-clock time and format it. -/
def formatLondonOfUtc (u : Nat) : String :=
  formatYMD (ymdOfMinutes (u + londonOffsetMin u)).1
    (ymdOfMinutes (u + londonOffsetMin u)).2.1
    (ymdOfMinutes (u + londonOffsetMin u)).2.2

lemma formatLondonOfUtc_digits (u : Nat) :
    (formatLondonOfUtc u).data.all isDigitChar = true := formatYMD_digits _ _ _

lemma formatLondonOfUtc_pos (u : Nat) :
    0 < (formatLondonOfUtc u).length := formatYMD_pos _ _ _

/-! ## scraper.py — `get_output_dir_by_date`

Embedding of `get_output_dir_by_date` (scraper.py lines 71-176).  The
function's result is the bucket-date string `folder_date` (the directory
name under `articles/`); the `mkdir` side effect is outside the model.
The current instant `datetime.now(london_tz)` is the parameter `nowUtc`
(minutes since 0001-01-01 UTC). -/

namespace Scraper

/-- Pattern 1, `([a-zA-Z]{3,9})\.?\s+(\d{1,2}),?\s+(\d{4})`, tried at one
position.  Returns (group 1 characters, `int(group 2)`, `int(group 3)`). -/
def matchDateAt (l : List Char) : Option (List Char × Nat × Nat) :=
  greedyRange isLetterChar 3 9 l (fun mon r1 =>
    greedyRange (fun c => c == '.') 0 1 r1 (fun _ r2 =>
      greedyRange isPySpace 1 r2.length r2 (fun _ r3 =>
        greedyRange isDigitChar 1 2 r3 (fun dayC r4 =>
          greedyRange (fun c => c == ',') 0 1 r4 (fun _ r5 =>
            greedyRange isPySpace 1 r5.length r5 (fun _ r6 =>
              greedyRange isDigitChar 4 4 r6 (fun yC _ =>
                some (mon, natOfDigits dayC, natOfDigits yC))))))))

/-- Pattern 2, `(\d{1,2}):(\d{2})\s*(am|pm)` with `re.IGNORECASE`, tried at
one position.  Returns (hour, minute, group 3 lowered = "pm"). -/
def matchTimeAt (l : List Char) : Option (Nat × Nat × Bool) :=
  greedyRange isDigitChar 1 2 l (fun hC r1 =>
    matchChar ':' r1 >>= fun r2 =>
      greedyRange isDigitChar 2 2 r2 (fun mC r3 =>
        greedyRange isPySpace 0 r3.length r3 (fun _ r4 =>
          (matchLitCI ['a', 'm'] r4).map
              (fun _ => (natOfDigits hC, natOfDigits mC, false)) <|>
            (matchLitCI ['p', 'm'] r4).map
              (fun _ => (natOfDigits hC, natOfDigits mC, true)))))

/-- Pattern 3, `(GMT|UTC)([+-])(\d+)` with `re.IGNORECASE`, tried at one
position.  Returns (sign is `+`, `int(group 3)`). -/
def matchTzAt (l : List Char) : Option (Bool × Nat) :=
  (matchLitCI ['g', 'm', 't'] l <|> matchLitCI ['u', 't', 'c'] l) >>= fun r1 =>
    match r1 with
    | [] => none
    | s :: r2 =>
      if s == '+' || s == '-' then
        match r2.takeWhile isDigitChar with
        | [] => none
        | ds => some (s == '+', natOfDigits ds)
      else none

/-- The `month_map` table keyed by the lowered first three letters. -/
def month_map (s : String) : Option Nat :=
  if s = "jan" then some 1 else if s = "feb" then some 2
  else if s = "mar" then some 3 else if s = "apr" then some 4
  else if s = "may" then some 5 else if s = "jun" then some 6
  else if s = "jul" then some 7 else if s = "aug" then some 8
  else if s = "sep" then some 9 else if s = "oct" then some 10
  else if s = "nov" then some 11 else if s = "dec" then some 12
  else none

/-- The 24-hour conversion: `pm` adds 12 except at 12, `12 am` is 0. -/
def to24Hour (h : Nat) (isPm : Bool) : Nat :=
  if isPm && h != 12 then h + 12
  else if !isPm && h == 12 then 0
  else h

/-- `(hour, minute)` as the code computes them: 0:00 when no time matched. -/
def parsedHourMinute (s : String) : Nat × Nat :=
  match searchAux matchTimeAt s.data with
  | none => (0, 0)
  | some x => (to24Hour x.1 x.2.2, x.2.1)

/-- `tz_offset_hours`: 0 when no zone matched, else signed hours. -/
def parsedOffset (s : String) : Int :=
  match searchAux matchTzAt s.data with
  | none => 0
  | some x => if x.1 then (x.2 : Int) else -(x.2 : Int)

/-- Would `datetime(y, m, d, h, mi)` succeed? (`ValueError` otherwise). -/
def dtValid (y m d h mi : Nat) : Bool :=
  decide (1 ≤ y) && decide (y ≤ 9999) && decide (1 ≤ m) && decide (m ≤ 12) &&
  decide (1 ≤ d) && decide (d ≤ daysInMonth y m) &&
  decide (h ≤ 23) && decide (mi ≤ 59)

/-- `dt_naive - timedelta(hours=tz_offset_hours)` in minutes (may leave the
`datetime` range, which raises `OverflowError` in the code). -/
def utcMinutesOf (s : String) (year month day : Nat) : Int :=
  (minutesOf year month day (parsedHourMinute s).1 (parsedHourMinute s).2 : Int)
    - 60 * parsedOffset s

/-- The `folder_date` computed once pattern 1 matched and the month
abbreviation was found in `month_map`: the `try` block (build the naive
datetime, subtract the offset, convert to London, format), with the
`except` fallback `f"{year}{month:02d}{day:02d}"` when the datetime cannot
be built or the subtraction overflows. -/
def structuredCompute (s : String) (year month day : Nat) : String :=
  if dtValid year month day (parsedHourMinute s).1 (parsedHourMinute s).2 then
    if 0 ≤ utcMinutesOf s year month day ∧
        utcMinutesOf s year month day < (maxDtMinutes : Int) then
      formatLondonOfUtc (utcMinutesOf s year month day).toNat
    else formatYMD year month day
  else formatYMD year month day

/-- Lines 83-152: the structured parse.  `none` when pattern 1 does not
match or the month abbreviation is unknown (then `folder_date` stays
`None` and the ISO fallback runs). -/
def structuredFolder (s : String) : Option String :=
  match searchAux matchDateAt s.data with
  | none => none
  | some x =>
    match month_map ⟨(x.1.take 3).map Char.toLower⟩ with
    | none => none
    | some month => some (structuredCompute s x.2.2 month x.2.1)

/-- The `folder_date` computed from an ISO `YYYY-MM-DD` match: treat as
UTC, convert to London (`try`), else concatenate the matched groups. -/
def isoCompute (g1 g2 g3 : List Char) : String :=
  if dtValid (natOfDigits g1) (natOfDigits g2) (natOfDigits g3) 0 0 then
    formatLondonOfUtc (minutesOf (natOfDigits g1) (natOfDigits g2) (natOfDigits g3) 0 0)
  else ⟨g1 ++ g2 ++ g3⟩

/-- Pattern 4, `(\d{4})-(\d{2})-(\d{2})`, tried at one position. -/
def matchISOAt (l : List Char) : Option (List Char × List Char × List Char) :=
  greedyRange isDigitChar 4 4 l (fun g1 r1 =>
    matchChar '-' r1 >>= fun r2 =>
      greedyRange isDigitChar 2 2 r2 (fun g2 r3 =>
        matchChar '-' r3 >>= fun r4 =>
          greedyRange isDigitChar 2 2 r4 (fun g3 _ => some (g1, g2, g3))))

/-- Lines 154-167: the ISO fallback parse. -/
def isoFolder (s : String) : Option String :=
  match searchAux matchISOAt s.data with
  | none => none
  | some g => some (isoCompute g.1 g.2.1 g.2.2)

/-- `folder_date` after both parse attempts on a truthy `date_str`. -/
def folderFromString (s : String) : Option String :=
  match structuredFolder s with
  | some f => some f
  | none => isoFolder s

/-- `get_output_dir_by_date` (the bucket-date string it selects).
`date_str` is falsy when `None` or empty; when no parse succeeds the
bucket is today's date in London. -/
def get_output_dir_by_date (date_str : Option String) (nowUtc : Nat) : String :=
  match date_str with
  | none => formatLondonOfUtc nowUtc
  | some s =>
    if s = "" then formatLondonOfUtc nowUtc
    else
      match folderFromString s with
      | some f => f
      | none => formatLondonOfUtc nowUtc

end Scraper

namespace Scraper

/-! ## scraper.py — index persistence (`load_index`, lines 179-187)

The filesystem is the parameter `file` (`none` = `INDEX_FILE.exists()` is
false, `some s` = the file's contents) and `json.load` is the parameter
`parse` (`none` = it raised, i.e. the contents are not valid JSON, `some
idx` = the decoded url → timestamp mapping).  The bare `except: pass`
turns any parse failure into the empty mapping, so the function is total
(never raises). -/

def load_index (file : Option String)
    (parse : String → Option (List (String × String))) :
    List (String × String) :=
  match file with
  | none => []
  | some contents =>
    match parse contents with
    | some idx => idx
    | none => []

/-! ## scraper.py — `goto_with_retry` (lines 201-266)

One navigation attempt is an oracle value: either `page.goto` returned a
response (with an optional status, and the page-signal reads that follow —
`page.title()` and `body.inner_text()`, each `none` if that read raised,
in which case the inner `try` aborts and the code falls through to
success), or it raised an exception with the given message.  The model
returns the function's result (`success` / `exhausted` = `False` /
`raised` = the exception propagated) together with the trace of
`page.goto` calls and `time.sleep` durations, in order. -/

def MAX_RETRIES : Nat := 10
def RETRY_DELAY : Nat := 5

inductive NavAttempt where
  | resp (status : Option Nat) (title : Option String) (body : Option String)
  | exn (msg : String)
deriving DecidableEq, Repr

inductive NavResult where
  | success
  | exhausted
  | raised (msg : String)
deriving DecidableEq, Repr

inductive NavEvent where
  | goto (attempt : Nat)
  | sleep (secs : Nat)
deriving DecidableEq, Repr

/-- `'timeout' in error_msg or 'net::' in error_msg or 'navigation' in
error_msg` on the lowered message: the transient classification of a
navigation exception. -/
def isNavTransient (msg : String) : Bool :=
  containsStr (lowerStr msg) "timeout" || containsStr (lowerStr msg) "net::" ||
  containsStr (lowerStr msg) "navigation"

/-- The lines 222-247 page sniff: title lowered contains an error marker,
or the body is shorter than 500 characters and (lowered) contains one of
the known error phrases.  If reading the title or the body raised, the
inner `except: pass` skips the whole check. -/
def pageLooksBroken (title body : Option String) : Bool :=
  match title with
  | none => false
  | some t =>
    match body with
    | none => false
    | some b =>
      (containsStr (lowerStr t) "error" || containsStr (lowerStr t) "unavailable") ||
      (decide (b.length < 500) &&
        (["internal server error", "something went wrong",
          "service unavailable", "bad gateway", "gateway timeout",
          "server error"].any (fun ph => containsStr (lowerStr b) ph)))

/-- What one loop iteration does with the attempt's outcome: retry (with
the sleeps it performs first) or stop with a result (after its sleeps). -/
inductive StepR where
  | retry (sleeps : List Nat)
  | stop (r : NavResult) (sleeps : List Nat)
deriving DecidableEq, Repr

def gotoStepR (a : NavAttempt) : StepR :=
  match a with
  | .exn m =>
    if isNavTransient m then .retry [RETRY_DELAY] else .stop (.raised m) []
  | .resp status title body =>
    if (match status with | some s => decide (500 ≤ s) | none => false) then
      .retry [RETRY_DELAY]
    else if pageLooksBroken title body then .retry [1, RETRY_DELAY]
    else .stop .success [1]

/-- The `for attempt in range(max_retries)` loop; `fuel` is the number of
iterations left and `i` the current attempt index. -/
def gotoAux (att : Nat → NavAttempt) : Nat → Nat → NavResult × List NavEvent
  | 0, _ => (.exhausted, [])
  | fuel + 1, i =>
    match gotoStepR (att i) with
    | .retry sl =>
      let rest := gotoAux att fuel (i + 1)
      (rest.1, NavEvent.goto i :: sl.map NavEvent.sleep ++ rest.2)
    | .stop r sl => (r, NavEvent.goto i :: sl.map NavEvent.sleep)

/-- `goto_with_retry(page, url, max_retries)`: run up to `max_retries`
attempts against the oracle `att`. -/
def goto_with_retry (att : Nat → NavAttempt) (max_retries : Nat) :
    NavResult × List NavEvent :=
  gotoAux att max_retries 0

/-- The trace of `n` consecutive 5xx-failing attempts starting at index
`i`: each `page.goto` is followed by the fixed `RETRY_DELAY` sleep. -/
def trace503 : Nat → Nat → List NavEvent
  | _, 0 => []
  | i, n + 1 =>
    NavEvent.goto i :: NavEvent.sleep RETRY_DELAY :: trace503 (i + 1) n

/-! ## scraper.py — `get_article_links` URL filter (lines 356-377) -/

/-- `article_url_pattern`:
`nytimes\.com/athletic/\d+/\d{4}/\d{2}/\d{2}/`, tried at one position. -/
def matchArticleAt (l : List Char) : Option Unit :=
  matchLit "nytimes.com/athletic/".data l >>= fun r1 =>
    greedyRange isDigitChar 1 r1.length r1 (fun _ r2 =>
      matchChar '/' r2 >>= fun r3 =>
        greedyRange isDigitChar 4 4 r3 (fun _ r4 =>
          matchChar '/' r4 >>= fun r5 =>
            greedyRange isDigitChar 2 2 r5 (fun _ r6 =>
              matchChar '/' r6 >>= fun r7 =>
                greedyRange isDigitChar 2 2 r7 (fun _ r8 =>
                  matchChar '/' r8 >>= fun _ => some ()))))

def exclude_patterns : List String :=
  ["/login", "/subscribe", "/account", "/author/", "/team/", "/league/",
   "/podcast/"]

/-- The per-href filter of `get_article_links`: keep the href only when
`article_url_pattern.search(href)` matches and no exclusion pattern is a
substring. -/
def urlFilterAccept (href : String) : Bool :=
  (searchAux matchArticleAt href.data).isSome &&
  !(exclude_patterns.any (fun p => containsStr href p))

/-! ## scraper.py — `extract_article_content` body strategies (lines 499-547)

A paragraph element of the article's content container:
`direct` = it is a direct child of `div.article-content-container`,
`cls` = its `class` attribute (`none` when absent), `text` = its
`inner_text()`.  The CSS query `div.article-content-container >
p:not([class])` selects exactly the direct children with no class
attribute; the fallback `content_container.locator('p')` selects every
descendant paragraph, in document order. -/

structure Para where
  direct : Bool
  cls : Option String
  text : String
deriving DecidableEq, Repr

def skip_classes : List String :=
  ["ImageCaption", "ImageCredit", "ad-slug", "showcase"]

def skip_texts : List String :=
  ["advertisement", "follow", "twitter", "@", "getty images", "photo:"]

/-- Primary strategy: direct-child unclassed paragraphs whose stripped
text is non-empty and longer than 10 characters. -/
def primaryParagraphs (ps : List Para) : List String :=
  (ps.filter (fun p => p.direct && p.cls == none)).filterMap (fun p =>
    if stripStr p.text != "" && decide (10 < (stripStr p.text).length) then
      some (stripStr p.text)
    else none)

/-- `any(skip in p_class for skip in skip_classes)` with
`p_class = p.get_attribute('class') or ''`. -/
def hasSkipClass (p : Para) : Bool :=
  skip_classes.any (fun s => containsStr (p.cls.getD "") s)

/-- Secondary (descendant-scan) strategy: every paragraph of the
container, skipping the marker classes, texts of at most 20 characters,
and texts whose lowered first 50 characters contain a boilerplate
marker. -/
def secondaryParagraphs (ps : List Para) : List String :=
  ps.filterMap (fun p =>
    if hasSkipClass p then none
    else
      if stripStr p.text != "" && decide (20 < (stripStr p.text).length) &&
          !(skip_texts.any (fun s =>
            containsStr (takeStr (lowerStr (stripStr p.text)) 50) (lowerStr s))) then
        some (stripStr p.text)
      else none)

/-- The paragraph list that reaches `article_data["content"]`: the primary
strategy, or — only when it produced zero paragraphs — the secondary. -/
def extractBodyParagraphs (ps : List Para) : List String :=
  if (primaryParagraphs ps).isEmpty then secondaryParagraphs ps
  else primaryParagraphs ps

/-- `article_data["content"] = "\n\n".join(paragraphs)`. -/
def extractContent (ps : List Para) : String :=
  String.intercalate "\n\n" (extractBodyParagraphs ps)

/-! ## scraper.py — the per-article loop of `main` (lines 766-795)

`extract_article_content` is the oracle `extract` (its full record is
reduced to the fields the loop reads: the `error` key and
`published_date`); `datetime.now().isoformat()` is the oracle `tsOf`.
The loop starts from the loaded index and returns the index finally passed
to `save_index` together with the list of files written, as
`(url, bucket directory)` pairs in processing order. -/

structure ArticleInfo where
  title : String
  url : String
deriving DecidableEq, Repr

structure Extracted where
  url : String
  error : Option String
  published_date : Option String
deriving DecidableEq, Repr

/-- Python `dict` assignment `d[k] = v`: replace in place or append. -/
def dictInsert : List (String × String) → String → String → List (String × String)
  | [], k, v => [(k, v)]
  | (k', v') :: t, k, v =>
    if k' = k then (k, v) :: t else (k', v') :: dictInsert t k v

/-- Python `d.get(k)` / `k in d` on the modelled mapping. -/
def dictGet : List (String × String) → String → Option String
  | [], _ => none
  | (k', v') :: t, k => if k' = k then some v' else dictGet t k

/-- The `for i, article_info in enumerate(new_articles, 1)` loop: a failed
extraction (record has an `error` key) is only logged — no file is saved
and the index is untouched; a successful one is saved into the bucket
directory chosen by `get_output_dir_by_date(published_date)` and recorded
in the index. -/
def processArticles (extract : String → Extracted) (nowUtc : Nat)
    (tsOf : String → String) :
    List ArticleInfo → List (String × String) →
    List (String × String) × List (String × String)
  | [], index => (index, [])
  | a :: rest, index =>
    match (extract a.url).error with
    | some _ => processArticles extract nowUtc tsOf rest index
    | none =>
      let dir := get_output_dir_by_date
        (some (((extract a.url).published_date).getD "")) nowUtc
      let next := processArticles extract nowUtc tsOf rest
        (dictInsert index a.url (tsOf a.url))
      (next.1, (a.url, dir) :: next.2)

end Scraper

/-! ## summary.py — `generate_summary` (lines 92-150)

One completion call (`client.chat.completions.create`) is an oracle
value: the response's message content plus its optional reported
`usage.total_tokens`, or an exception with the given message.  The model
returns what the Python call returns or raises — `ok (summary, tokens)`
for the tuple, `genError msg` for a raised `SummaryGenerationError`
(the only exception kind the function can raise: every other exception is
caught by the `except` and rewrapped) — together with the number of API
calls made and the list of sleep durations performed. -/

namespace Summary

def MAX_RETRIES : Nat := 3
def RETRY_DELAY : Nat := 5

inductive ApiResp where
  | success (content : String) (usage : Option Nat)
  | failure (msg : String)
deriving DecidableEq, Repr

inductive SummaryOutcome where
  | ok (summary : String) (tokens : Nat)
  | genError (msg : String)
deriving DecidableEq, Repr

/-- The article dict as `generate_summary` reads it:
`article.get("title", "无标题")`, `article.get("content", "")`. -/
structure SArticle where
  title : Option String
  content : Option String
deriving DecidableEq, Repr

/-- The fixed placeholder returned for empty content. -/
def PLACEHOLDER : String := "（文章内容为空，无法生成摘要）"

/-- `estimate_tokens`: CJK characters ÷ 1.5 plus other characters ÷ 4,
truncated — `int(chinese/1.5 + other/4)` equals `(8c + 3o) / 12` in
exact arithmetic. -/
def estimate_tokens (s : String) : Nat :=
  (8 * (s.data.filter
      (fun c => decide (0x4e00 ≤ c.toNat) && decide (c.toNat ≤ 0x9fff))).length
    + 3 * (s.length - (s.data.filter
      (fun c => decide (0x4e00 ≤ c.toNat) && decide (c.toNat ≤ 0x9fff))).length))
  / 12

/-- `'timeout' in error_msg or 'timed out' in error_msg or 'connection' in
error_msg` on the lowered message: the transient classification. -/
def isApiTransient (msg : String) : Bool :=
  containsStr (lowerStr msg) "timeout" || containsStr (lowerStr msg) "timed out" ||
  containsStr (lowerStr msg) "connection"

/-- `f"{prompt}\n\n标题：{title}\n\n正文：\n{content}"`. -/
def mkUserMsg (prompt title content : String) : String :=
  prompt ++ "\n\n标题：" ++ title ++ "\n\n正文：\n" ++ content

/-- The message of the `SummaryGenerationError` raised on a
non-transient failure: `f"生成摘要失败: {e}"`. -/
def fatalMsg (e : String) : String := "生成摘要失败: " ++ e

/-- The message of the `SummaryGenerationError` raised after the retry
budget: `f"生成摘要失败（重试 {MAX_RETRIES} 次后）: {last_error}"`. -/
def exhaustMsg (lastError : String) : String :=
  "生成摘要失败（重试 3 次后）: " ++ lastError

/-- `str(last_error)` where `last_error` starts as `None`. -/
def errStr : Option String → String
  | none => "None"
  | some m => m

/-- Token accounting on a successful response: prefer the reported
usage, else estimate input + output. -/
def tokenCount (userMsg summary : String) (usage : Option Nat) : Nat :=
  match usage with
  | some t => t
  | none => estimate_tokens userMsg + estimate_tokens summary

/-- The `for attempt in range(MAX_RETRIES)` loop; `fuel` iterations left,
`i` the next call's index, `lastErr` the `last_error` variable.  Falling
off the loop raises the exhausted-retries `SummaryGenerationError`. -/
def sumLoop (calls : Nat → ApiResp) (userMsg : String) :
    Nat → Nat → Option String → SummaryOutcome × Nat × List Nat
  | 0, i, lastErr => (.genError (exhaustMsg (errStr lastErr)), i, [])
  | fuel + 1, i, _lastErr =>
    match calls i with
    | .success content usage =>
      (.ok (stripStr content) (tokenCount userMsg (stripStr content) usage),
        i + 1, [])
    | .failure m =>
      if isApiTransient m then
        let rest := sumLoop calls userMsg fuel (i + 1) (some m)
        (rest.1, rest.2.1, RETRY_DELAY :: rest.2.2)
      else (.genError (fatalMsg m), i + 1, [])

/-- `generate_summary(client, prompt, article)`: empty content
short-circuits to the placeholder with zero tokens and no API call;
otherwise the bounded-retry loop runs. -/
def generate_summary (calls : Nat → ApiResp) (prompt : String)
    (article : SArticle) : SummaryOutcome × Nat × List Nat :=
  if article.content.getD "" = "" then (.ok PLACEHOLDER 0, 0, [])
  else
    sumLoop calls
      (mkUserMsg prompt (article.title.getD "无标题") (article.content.getD ""))
      MAX_RETRIES 0 none

end Summary

/-! ## Claims -/

lemma dictGet_dictInsert_ne :
    ∀ (l : List (String × String)) (k v u : String), k ≠ u →
      Scraper.dictGet (Scraper.dictInsert l k v) u = Scraper.dictGet l u := by
  intro l
  induction l with
  | nil =>
    intro k v u hk
    simp [Scraper.dictInsert, Scraper.dictGet, hk]
  | cons h t ih =>
    intro k v u hk
    obtain ⟨k', v'⟩ := h
    by_cases he : k' = k
    · subst he
      simp [Scraper.dictInsert, Scraper.dictGet, hk]
    · simp only [Scraper.dictInsert, if_neg he, Scraper.dictGet]
      by_cases hu : k' = u
      · simp [hu]
      · simp [hu, ih k v u hk]

/-- C5: with an absent (`None` or empty) raw date string,
`get_output_dir_by_date` returns exactly `now` converted to the reference
timezone (Europe/London — the only reference timezone the code has) and
formatted `YYYYMMDD`; concretely, a `now` of 2026-06-15T23:30Z buckets as
"20260616" (British Summer Time shifts it across midnight). -/
theorem claim_C5_now_fallback :
    (∀ nowUtc, Scraper.get_output_dir_by_date none nowUtc =
      formatLondonOfUtc nowUtc) ∧
    (∀ nowUtc, Scraper.get_output_dir_by_date (some "") nowUtc =
      formatLondonOfUtc nowUtc) ∧
    Scraper.get_output_dir_by_date none (minutesOf 2026 6 15 23 30) =
      "20260616" := by
  refine ⟨fun _ => rfl, fun _ => rfl, by decide⟩

/-- C10: `load_index` never raises — a missing index file, or one whose
contents `json.load` rejects, yields the empty mapping, so every URL is
treated as not yet scraped. -/
theorem claim_C10_load_index :
    (∀ parse, Scraper.load_index none parse = []) ∧
    (∀ s parse, parse s = none → Scraper.load_index (some s) parse = []) := by
  refine ⟨fun _ => rfl, fun s parse h => ?_⟩
  simp [Scraper.load_index, h]

/-- Witness for C10 at a concrete corrupted file. -/
theorem claim_C10_witness :
    Scraper.load_index (some "this is not valid json") (fun _ => none) = [] :=
  claim_C10_load_index.2 "this is not valid json" (fun _ => none) rfl

/-- C9: the link collector's URL filter rejects every href containing an
excluded path segment (`/login`, `/subscribe`, `/account`, `/author/`,
`/team/`, `/league/`, `/podcast/`), and accepts an href of the article
shape `…nytimes.com/athletic/<id>/<yyyy>/<mm>/<dd>/…`. -/
theorem claim_C9_url_filter :
    (∀ href p, p ∈ Scraper.exclude_patterns → containsStr href p = true →
      Scraper.urlFilterAccept href = false) ∧
    Scraper.urlFilterAccept
      "https://www.nytimes.com/athletic/12345/2026/02/06/some-title/" = true ∧
    Scraper.urlFilterAccept "https://www.nytimes.com/athletic/login" = false := by
  refine ⟨?_, by decide, by decide⟩
  intro href p hp hc
  have h : Scraper.exclude_patterns.any (fun q => containsStr href q) = true :=
    List.any_eq_true.mpr ⟨p, hp, hc⟩
  simp [Scraper.urlFilterAccept, h]

/-- Witness for C9: an href that has the article shape but sits under an
excluded segment is still rejected. -/
theorem claim_C9_witness :
    Scraper.urlFilterAccept
      "https://www.nytimes.com/athletic/12345/2026/02/06/login-extra/" = false :=
  claim_C9_url_filter.1
    "https://www.nytimes.com/athletic/12345/2026/02/06/login-extra/"
    "/login" (by decide) (by decide)

/-- C7: an article whose `content` field is absent or empty
short-circuits `generate_summary` to the fixed placeholder summary with
exactly 0 tokens, performing no completion-API call (and no sleep). -/
theorem claim_C7_empty_content (calls : Nat → Summary.ApiResp)
    (prompt : String) (a : Summary.SArticle)
    (h : a.content = none ∨ a.content = some "") :
    Summary.generate_summary calls prompt a =
      (.ok Summary.PLACEHOLDER 0, 0, []) := by
  rcases h with h | h <;> simp [Summary.generate_summary, h]

/-- Witness for C7: a missing content field, with an oracle that would
fail every call — the call is never made. -/
theorem claim_C7_witness :
    Summary.generate_summary (fun _ => .failure "boom") "prompt"
      ⟨some "title", none⟩ = (.ok Summary.PLACEHOLDER 0, 0, []) :=
  claim_C7_empty_content (fun _ => .failure "boom") "prompt"
    ⟨some "title", none⟩ (Or.inl rfl)

/-- C4: the content extractor uses the secondary descendant-scan strategy
exactly when the primary direct-child-unclassed strategy yields zero
paragraphs; in the secondary strategy, paragraphs whose class contains one
of the fixed markers contribute nothing to the result (filtering them away
beforehand changes nothing), and a class containing "ImageCaption" is such
a marker. -/
theorem claim_C4_paragraph_fallback :
    (∀ ps, Scraper.primaryParagraphs ps ≠ [] →
      Scraper.extractBodyParagraphs ps = Scraper.primaryParagraphs ps) ∧
    (∀ ps, Scraper.primaryParagraphs ps = [] →
      Scraper.extractBodyParagraphs ps = Scraper.secondaryParagraphs ps) ∧
    (∀ ps, Scraper.secondaryParagraphs
        (ps.filter (fun p => !(Scraper.hasSkipClass p))) =
      Scraper.secondaryParagraphs ps) ∧
    (∀ p : Scraper.Para, containsStr (p.cls.getD "") "ImageCaption" = true →
      Scraper.hasSkipClass p = true) := by
  refine ⟨?_, ?_, ?_, ?_⟩
  · intro ps h
    simp [Scraper.extractBodyParagraphs, List.isEmpty_iff, h]
  · intro ps h
    simp [Scraper.extractBodyParagraphs, List.isEmpty_iff, h]
  · intro ps
    induction ps with
    | nil => rfl
    | cons p t ih =>
      by_cases h : Scraper.hasSkipClass p
      · simp only [Scraper.secondaryParagraphs] at ih ⊢
        rw [List.filter_cons, if_neg (by simp [h]), List.filterMap_cons,
          if_pos h]
        exact ih
      · simp only [Scraper.secondaryParagraphs] at ih ⊢
        rw [List.filter_cons, if_pos (by simp [h]), List.filterMap_cons,
          List.filterMap_cons, ih]
  · intro p h
    exact List.any_eq_true.mpr ⟨"ImageCaption", by decide, h⟩

/-- Witness for C4: one long unclassed direct-child paragraph keeps the
primary strategy's output. -/
theorem claim_C4_witness :
    Scraper.extractBodyParagraphs
        [⟨true, none, "A sufficiently long body paragraph."⟩] =
      Scraper.primaryParagraphs
        [⟨true, none, "A sufficiently long body paragraph."⟩] :=
  claim_C4_paragraph_fallback.1 _ (by decide)

/-- C8: when the extractor returns a record carrying an `error` field for
an article, the run simply continues with the remaining articles — that
article contributes neither a saved file nor an index entry; and a URL
whose every occurrence fails extraction ends the run with its index entry
unchanged and with no file written for it (entries are added only on
successful extraction and save). -/
theorem claim_C8_continue_on_failure :
    (∀ extract nowUtc tsOf (a : Scraper.ArticleInfo) rest index,
      (extract a.url).error ≠ none →
      Scraper.processArticles extract nowUtc tsOf (a :: rest) index =
        Scraper.processArticles extract nowUtc tsOf rest index) ∧
    (∀ extract nowUtc tsOf (urls : List Scraper.ArticleInfo) index u,
      (∀ a ∈ urls, a.url = u → (extract u).error ≠ none) →
      Scraper.dictGet
          (Scraper.processArticles extract nowUtc tsOf urls index).1 u =
        Scraper.dictGet index u ∧
      u ∉ (Scraper.processArticles extract nowUtc tsOf urls index).2.map
        Prod.fst) := by
  constructor
  · intro extract nowUtc tsOf a rest index h
    cases he : (extract a.url).error with
    | none => exact absurd he h
    | some m => simp [Scraper.processArticles, he]
  · intro extract nowUtc tsOf urls
    induction urls with
    | nil =>
      intro index u _
      exact ⟨rfl, by simp [Scraper.processArticles]⟩
    | cons a rest ih =>
      intro index u h
      cases he : (extract a.url).error with
      | some m =>
        simp only [Scraper.processArticles, he]
        exact ih index u (fun b hb hbu => h b (List.mem_cons_of_mem a hb) hbu)
      | none =>
        have hau : a.url ≠ u := by
          intro hau
          exact absurd he (by
            have := h a (List.mem_cons_self a rest) hau
            rw [hau] at he ⊢
            exact this)
        simp only [Scraper.processArticles, he]
        obtain ⟨ih1, ih2⟩ := ih (Scraper.dictInsert index a.url (tsOf a.url)) u
          (fun b hb hbu => h b (List.mem_cons_of_mem a hb) hbu)
        refine ⟨?_, ?_⟩
        · rw [ih1, dictGet_dictInsert_ne index a.url (tsOf a.url) u hau]
        · simp only [List.map_cons, List.mem_cons]
          rintro (h1 | h2)
          · exact hau h1.symm
          · exact ih2 h2

/-- Witness for C8: a failing extraction of the single queued article is
a no-op on the run's state. -/
theorem claim_C8_witness :
    Scraper.processArticles (fun u => ⟨u, some "页面加载失败（多次重试后）", none⟩)
        0 (fun _ => "2026-02-06T00:00:00") [⟨"Title", "https://e/a"⟩] [] =
      Scraper.processArticles (fun u => ⟨u, some "页面加载失败（多次重试后）", none⟩)
        0 (fun _ => "2026-02-06T00:00:00") [] [] :=
  claim_C8_continue_on_failure.1
    (fun u => ⟨u, some "页面加载失败（多次重试后）", none⟩) 0
    (fun _ => "2026-02-06T00:00:00") ⟨"Title", "https://e/a"⟩ [] []
    (by decide)

lemma gotoAux_all503 (att : Nat → Scraper.NavAttempt) :
    ∀ (fuel i : Nat),
      (∀ j, j < fuel → ∃ t b, att (i + j) = .resp (some 503) t b) →
      Scraper.gotoAux att fuel i = (.exhausted, Scraper.trace503 i fuel) := by
  intro fuel
  induction fuel with
  | zero => intro i _; rfl
  | succ n ih =>
    intro i h
    obtain ⟨t, b, hab⟩ := h 0 (Nat.succ_pos n)
    have hstep : Scraper.gotoStepR (att i) = .retry [Scraper.RETRY_DELAY] := by
      rw [show i + 0 = i from rfl] at hab
      rw [hab]
      simp [Scraper.gotoStepR]
    simp only [Scraper.gotoAux, hstep]
    rw [ih (i + 1) (fun j hj => by
      have := h (j + 1) (by omega)
      rwa [show i + (j + 1) = i + 1 + j from by omega] at this)]
    rfl

lemma gotoAux_fatal (att : Nat → Scraper.NavAttempt) :
    ∀ (fuel i k : Nat) (m : String), k < fuel →
      (∀ j, j < k → ∃ t b, att (i + j) = .resp (some 503) t b) →
      att (i + k) = .exn m → Scraper.isNavTransient m = false →
      Scraper.gotoAux att fuel i =
        (.raised m, Scraper.trace503 i k ++ [.goto (i + k)]) := by
  intro fuel
  induction fuel with
  | zero => intro i k m hk; exact absurd hk (Nat.not_lt_zero k)
  | succ n ih =>
    intro i k m hk h503 hexn htrans
    cases k with
    | zero =>
      have hstep : Scraper.gotoStepR (att i) = .stop (.raised m) [] := by
        rw [show i + 0 = i from rfl] at hexn
        rw [hexn]
        simp [Scraper.gotoStepR, htrans]
      simp only [Scraper.gotoAux, hstep]
      rfl
    | succ k' =>
      obtain ⟨t, b, hab⟩ := h503 0 (Nat.succ_pos k')
      have hstep : Scraper.gotoStepR (att i) = .retry [Scraper.RETRY_DELAY] := by
        rw [show i + 0 = i from rfl] at hab
        rw [hab]
        simp [Scraper.gotoStepR]
      simp only [Scraper.gotoAux, hstep]
      rw [ih (i + 1) k' m (by omega)
        (fun j hj => by
          have := h503 (j + 1) (by omega)
          rwa [show i + (j + 1) = i + 1 + j from by omega] at this)
        (by rwa [show i + 1 + k' = i + (k' + 1) from by omega])
        htrans]
      simp [Scraper.trace503, show i + 1 + k' = i + (k' + 1) from by omega]

/-- C1: when every attempt's response carries status 503,
`goto_with_retry` makes exactly `maxAttempts` `page.goto` calls with the
fixed `RETRY_DELAY` sleep between consecutive calls (the trace is the
`trace503` schedule) and then returns failure (`False`, not an
exception); and when an attempt — after any run of 503 responses — raises
an exception whose message has no timeout / `net::` / navigation marker,
the exception propagates at once: that call is the last, with no retry
and no further sleep. -/
theorem claim_C1_navigator_retry (att : Nat → Scraper.NavAttempt)
    (maxAttempts : Nat) :
    ((∀ i, i < maxAttempts → ∃ t b, att i = .resp (some 503) t b) →
      Scraper.goto_with_retry att maxAttempts =
        (.exhausted, Scraper.trace503 0 maxAttempts)) ∧
    (∀ k m, k < maxAttempts →
      (∀ j, j < k → ∃ t b, att j = .resp (some 503) t b) →
      att k = .exn m → Scraper.isNavTransient m = false →
      Scraper.goto_with_retry att maxAttempts =
        (.raised m, Scraper.trace503 0 k ++ [.goto k])) := by
  constructor
  · intro h
    exact gotoAux_all503 att maxAttempts 0 (fun j hj => by
      simpa using h j hj)
  · intro k m hk h503 hexn htrans
    have h := gotoAux_fatal att maxAttempts 0 k m hk
      (fun j hj => by simpa using h503 j hj) (by simpa using hexn) htrans
    simpa using h

/-- Witness for C1: three attempts, all 503, against the 3-attempt
budget: three calls, three fixed sleeps, failure result. -/
theorem claim_C1_witness :
    Scraper.goto_with_retry (fun _ => .resp (some 503) none none) 3 =
      (.exhausted, Scraper.trace503 0 3) :=
  (claim_C1_navigator_retry (fun _ => .resp (some 503) none none) 3).1
    (fun _ _ => ⟨none, none, rfl⟩)

/-- C6: for a non-empty article, `generate_summary` retries only on
failures whose message carries a timeout/connection-class substring — any
other failure is rewrapped and raised at once as the distinguished
`SummaryGenerationError` with no further call — and exhausting the fixed
budget of 3 attempts (with the fixed 5-second delay after each transient
failure) also raises `SummaryGenerationError`, never returning a result
and never raising any other exception kind. -/
theorem claim_C6_summary_retry (calls : Nat → Summary.ApiResp)
    (prompt : String) (a : Summary.SArticle) (ms : Nat → String)
    (hc : a.content.getD "" ≠ "") :
    ((∀ i, i < 3 → calls i = .failure (ms i) ∧
        Summary.isApiTransient (ms i) = true) →
      Summary.generate_summary calls prompt a =
        (.genError (Summary.exhaustMsg (ms 2)), 3,
          List.replicate 3 Summary.RETRY_DELAY)) ∧
    (∀ k m, k < 3 →
      (∀ j, j < k → calls j = .failure (ms j) ∧
        Summary.isApiTransient (ms j) = true) →
      calls k = .failure m → Summary.isApiTransient m = false →
      Summary.generate_summary calls prompt a =
        (.genError (Summary.fatalMsg m), k + 1,
          List.replicate k Summary.RETRY_DELAY)) := by
  constructor
  · intro h
    obtain ⟨h0, t0⟩ := h 0 (by omega)
    obtain ⟨h1, t1⟩ := h 1 (by omega)
    obtain ⟨h2, t2⟩ := h 2 (by omega)
    unfold Summary.generate_summary
    rw [if_neg hc]
    simp only [Summary.MAX_RETRIES, Summary.sumLoop, h0, t0, h1, t1, h2, t2,
      if_true]
    rfl
  · intro k m hk h503 hfail htrans
    interval_cases k
    · unfold Summary.generate_summary
      rw [if_neg hc]
      simp only [Summary.MAX_RETRIES, Summary.sumLoop, hfail, htrans]
      rfl
    · obtain ⟨h0, t0⟩ := h503 0 (by omega)
      unfold Summary.generate_summary
      rw [if_neg hc]
      simp only [Summary.MAX_RETRIES, Summary.sumLoop, h0, t0, hfail, htrans,
        if_true]
      rfl
    · obtain ⟨h0, t0⟩ := h503 0 (by omega)
      obtain ⟨h1, t1⟩ := h503 1 (by omega)
      unfold Summary.generate_summary
      rw [if_neg hc]
      simp only [Summary.MAX_RETRIES, Summary.sumLoop, h0, t0, h1, t1, hfail,
        htrans, if_true]
      rfl

/-- Witness for C6: every call fails with a connection-class error; the
loop makes exactly 3 calls, sleeps 5 seconds after each, and raises the
exhausted-retries `SummaryGenerationError`. -/
theorem claim_C6_witness :
    Summary.generate_summary (fun _ => .failure "Connection error.") "prompt"
        ⟨some "title", some "body text"⟩ =
      (.genError (Summary.exhaustMsg "Connection error."), 3,
        List.replicate 3 Summary.RETRY_DELAY) :=
  (claim_C6_summary_retry (fun _ => .failure "Connection error.") "prompt"
      ⟨some "title", some "body text"⟩ (fun _ => "Connection error.")
      (by decide)).1
    (fun _ _ => ⟨rfl, by decide⟩)

lemma structuredCompute_ok (s : String) (year month day : Nat) :
    0 < (Scraper.structuredCompute s year month day).length ∧
    (Scraper.structuredCompute s year month day).data.all isDigitChar = true := by
  unfold Scraper.structuredCompute
  split
  · split
    · exact ⟨formatLondonOfUtc_pos _, formatLondonOfUtc_digits _⟩
    · exact ⟨formatYMD_pos year month day, formatYMD_digits year month day⟩
  · exact ⟨formatYMD_pos year month day, formatYMD_digits year month day⟩

lemma structuredFolder_ok (s : String) (f : String)
    (h : Scraper.structuredFolder s = some f) :
    0 < f.length ∧ f.data.all isDigitChar = true := by
  unfold Scraper.structuredFolder at h
  split at h
  · exact Option.noConfusion h
  · rename_i x hsearch
    split at h
    · exact Option.noConfusion h
    · rename_i month hmap
      injection h with h
      subst h
      exact structuredCompute_ok s x.2.2 month x.2.1

lemma matchISOAt_digits (l g1 g2 g3 : List Char)
    (h : Scraper.matchISOAt l = some (g1, g2, g3)) :
    (g1 ++ g2 ++ g3).all isDigitChar = true ∧ 4 ≤ g1.length := by
  unfold Scraper.matchISOAt at h
  obtain ⟨c1, r1, hall1, hlen1, h1⟩ := greedyRange_sound 4 l _ _ h
  simp only [Option.bind_eq_bind, Option.bind_eq_some] at h1
  obtain ⟨r2, _, h2⟩ := h1
  obtain ⟨c2, r3, hall2, _, h3⟩ := greedyRange_sound 2 r2 _ _ h2
  simp only [Option.bind_eq_bind, Option.bind_eq_some] at h3
  obtain ⟨r4, _, h4⟩ := h3
  obtain ⟨c3, r5, hall3, _, h5⟩ := greedyRange_sound 2 r4 _ _ h4
  simp only [Option.some.injEq, Prod.mk.injEq] at h5
  obtain ⟨e1, e2, e3⟩ := h5
  subst e1; subst e2; subst e3
  simp [List.all_append, hall1, hall2, hall3, hlen1]

lemma isoFolder_ok (s : String) (f : String)
    (h : Scraper.isoFolder s = some f) :
    0 < f.length ∧ f.data.all isDigitChar = true := by
  unfold Scraper.isoFolder at h
  split at h
  · exact Option.noConfusion h
  · rename_i g hsearch
    obtain ⟨g1, g2, g3⟩ := g
    injection h with h
    subst h
    obtain ⟨l', hl'⟩ := searchAux_sound _ _ hsearch
    obtain ⟨hdig, hlen⟩ := matchISOAt_digits l' g1 g2 g3 hl'
    unfold Scraper.isoCompute
    split
    · exact ⟨formatLondonOfUtc_pos _, formatLondonOfUtc_digits _⟩
    · constructor
      · show 0 < (g1 ++ g2 ++ g3).length
        simp only [List.length_append]
        omega
      · exact hdig

lemma folderFromString_ok (s : String) (f : String)
    (h : Scraper.folderFromString s = some f) :
    0 < f.length ∧ f.data.all isDigitChar = true := by
  unfold Scraper.folderFromString at h
  split at h
  · rename_i f' hf'
    injection h with h
    subst h
    exact structuredFolder_ok s f' hf'
  · exact isoFolder_ok s f h

/-- C3 counterexample: on the input "Feb. 6, 0000" the bucket string is
"00206" — 5 characters, not a well-formed 8-digit YYYYMMDD (the code hits
`datetime(0, 2, 6)`, which raises, and the `f"{year}{month:02d}{day:02d}"`
fallback does not zero-pad the year 0). -/
theorem claim_C3_counterexample :
    Scraper.get_output_dir_by_date (some "Feb. 6, 0000") 0 = "00206" ∧
    (Scraper.get_output_dir_by_date (some "Feb. 6, 0000") 0).length = 5 := by
  exact ⟨by decide, by decide⟩

/-- C3 amended: for every input string (including malformed, empty and
arbitrary garbage) and every `now`, the date-bucketing function never
raises (it is total: every exception path of the code ends in a caught
fallback) and always returns a non-empty string consisting solely of
decimal digits; but the string can be shorter than 8 digits when a parsed
year with fewer than four significant digits (below 1000) reaches a
formatting step, as the counterexample shows. -/
lemma get_output_some (s : String) (n : Nat) (hs : ¬ s = "") :
    Scraper.get_output_dir_by_date (some s) n =
      (match Scraper.folderFromString s with
       | some f => f
       | none => formatLondonOfUtc n) := by
  show (if s = "" then formatLondonOfUtc n
        else match Scraper.folderFromString s with
             | some f => f
             | none => formatLondonOfUtc n) =
    (match Scraper.folderFromString s with
     | some f => f
     | none => formatLondonOfUtc n)
  rw [if_neg hs]

theorem claim_C3_amended (ds : Option String) (nowUtc : Nat) :
    0 < (Scraper.get_output_dir_by_date ds nowUtc).length ∧
    (Scraper.get_output_dir_by_date ds nowUtc).data.all isDigitChar = true := by
  cases ds with
  | none => exact ⟨formatLondonOfUtc_pos _, formatLondonOfUtc_digits _⟩
  | some s =>
    by_cases hse : s = ""
    · subst hse
      exact ⟨formatLondonOfUtc_pos _, formatLondonOfUtc_digits _⟩
    · rw [get_output_some s nowUtc hse]
      cases hf : Scraper.folderFromString s with
      | none =>
        simp only [hf]
        exact ⟨formatLondonOfUtc_pos _, formatLondonOfUtc_digits _⟩
      | some f =>
        simp only [hf]
        exact folderFromString_ok s f hf

/-- C2: for a raw date string on which the structured parse succeeds, the
bucket is independent of `now` (deterministic); on the spec's example
"Feb. 6, 2026Updated 12:17 am GMT+8" the bucket is "20260205" for every
`now` — the timezone-correct value, since converting 2026-02-05T16:17:00Z
(the naive 00:17 of Feb 6 minus the GMT+8 offset) to Europe/London yields
that same calendar day. -/
theorem claim_C2_date_bucketing :
    (∀ s f n₁ n₂, Scraper.structuredFolder s = some f →
      Scraper.get_output_dir_by_date (some s) n₁ = f ∧
      Scraper.get_output_dir_by_date (some s) n₁ =
        Scraper.get_output_dir_by_date (some s) n₂) ∧
    (∀ nowUtc, Scraper.get_output_dir_by_date
        (some "Feb. 6, 2026Updated 12:17 am GMT+8") nowUtc = "20260205") ∧
    formatLondonOfUtc (minutesOf 2026 2 5 16 17) = "20260205" := by
  have key : ∀ s f n, Scraper.structuredFolder s = some f →
      Scraper.get_output_dir_by_date (some s) n = f := by
    intro s f n h
    have hs : ¬ s = "" := by
      intro he
      subst he
      rw [show Scraper.structuredFolder "" = none from rfl] at h
      exact Option.noConfusion h
    rw [get_output_some s n hs]
    unfold Scraper.folderFromString
    rw [h]
  refine ⟨fun s f n₁ n₂ h => ⟨key s f n₁ h, (key s f n₁ h).trans (key s f n₂ h).symm⟩,
    fun nowUtc => key _ "20260205" nowUtc (by decide), by decide⟩

/-- Witness for C2 at a concrete `now`. -/
theorem claim_C2_witness :
    Scraper.get_output_dir_by_date
        (some "Feb. 6, 2026Updated 12:17 am GMT+8") 0 = "20260205" :=
  (claim_C2_date_bucketing.1 "Feb. 6, 2026Updated 12:17 am GMT+8" "20260205"
    0 1 (by decide)).1
